import Mathlib

/-!
Verification of electron-dl-manager (download-lifecycle coordinator).

Shallow embedding of the library's data model and operations:
pure functions are translated directly from the TypeScript source;
external collaborators (the MIME-to-extension lookup, the on-disk
unique-filename generator, the sha-256 digest of node's crypto) are
passed as function parameters; JavaScript numbers are modelled as exact
rationals.  Parts of the v3 DownloadInitiator that are absent from this
source snapshot (only their tests and mocks are present) are modelled
from the specification and marked `Modelled from the spec:` in their
doc comments.
-/

namespace EDM

/-- Transfer state reported by the platform download item
(Electron DownloadItem.getState; see src/src/DownloadData.ts). -/
inductive ItemState where
  | progressing
  | completed
  | cancelled
  | interrupted
deriving DecidableEq, Repr

/-- The slice of the live platform item handle that DownloadData reads
through to: transfer state, paused flag, resumability and the raw byte
counters (src/src/DownloadData.ts). -/
structure ItemHandle where
  state : ItemState
  paused : Bool
  resumable : Bool
  receivedBytes : Nat
  totalBytes : Nat
deriving DecidableEq, Repr

/-- The Download Record (class DownloadData, src/src/DownloadData.ts):
per-download mutable state handed to every lifecycle callback. -/
structure DownloadData where
  id : String
  resolvedFilename : String
  percentCompleted : ℚ
  cancelledFromSaveAsDialog : Bool
  downloadRateBytesPerSecond : ℚ
  estimatedTimeRemainingSeconds : ℚ
  item : ItemHandle
deriving DecidableEq, Repr

/-- DownloadData.isDownloadInProgress (src/src/DownloadData.ts): reads the
item state and compares it to the constant progressing. -/
def DownloadData.isDownloadInProgress (d : DownloadData) : Bool :=
  d.item.state = ItemState.progressing

/-- DownloadData.isDownloadCompleted (src/src/DownloadData.ts). -/
def DownloadData.isDownloadCompleted (d : DownloadData) : Bool :=
  d.item.state = ItemState.completed

/-- DownloadData.isDownloadCancelled (src/src/DownloadData.ts). -/
def DownloadData.isDownloadCancelled (d : DownloadData) : Bool :=
  d.item.state = ItemState.cancelled

/-- DownloadData.isDownloadInterrupted (src/src/DownloadData.ts). -/
def DownloadData.isDownloadInterrupted (d : DownloadData) : Bool :=
  d.item.state = ItemState.interrupted

/-- DownloadData.isDownloadPaused (src/src/DownloadData.ts). -/
def DownloadData.isDownloadPaused (d : DownloadData) : Bool :=
  d.item.paused

/-- Rounding to two decimal places, modelling Number.toFixed(2) followed by
parseFloat in the source, as exact rational arithmetic (ties round up). -/
def round2 (x : ℚ) : ℚ := (round (x * 100) : ℚ) / 100

/-- Result record of the metrics calculator (src/src/index.ts,
calculateDownloadMetrics). -/
structure DownloadMetrics where
  percentCompleted : ℚ
  downloadRateBytesPerSecond : ℚ
  estimatedTimeRemainingSeconds : ℚ
deriving DecidableEq, Repr

/-- calculateDownloadMetrics (parameter form, src/src/index.ts lines 517-552):
elapsed time is now minus start; rate is downloaded over elapsed when elapsed
is positive, else 0; remaining time is remaining bytes over rate when the rate
is positive; percent is the two-decimal rounding of downloaded/total*100
capped at 100 when total is positive, else 0.  The wall clock is passed in as
nowSecs. -/
def calculateDownloadMetrics (totalBytes downloadedBytes startTimeSecs nowSecs : ℚ) :
    DownloadMetrics :=
  let elapsedTimeSecs := nowSecs - startTimeSecs
  let rate := if 0 < elapsedTimeSecs then downloadedBytes / elapsedTimeSecs else 0
  let eta :=
    if 0 < elapsedTimeSecs ∧ 0 < rate then (totalBytes - downloadedBytes) / rate else 0
  let percent :=
    if 0 < totalBytes then min (round2 (downloadedBytes / totalBytes * 100)) 100 else 0
  { percentCompleted := percent
    downloadRateBytesPerSecond := rate
    estimatedTimeRemainingSeconds := eta }

/-- Byte counters, start time and the optional native metrics of the platform
item as read by the DownloadItem overload of calculateDownloadMetrics
(src/src/index.ts lines 397-438; Electron 30.3.0+ exposes
getCurrentBytesPerSecond and getPercentComplete, modelled as Options). -/
structure ItemMetricsView where
  receivedBytes : Nat
  totalBytes : Nat
  startTimeSecs : ℚ
  nativeBytesPerSecond : Option ℚ
  nativePercentComplete : Option ℚ

/-- calculateDownloadMetrics (DownloadItem overload, src/src/index.ts lines
397-438): prefers the native rate unless it is absent or zero (JavaScript
falsiness of the initial value), and prefers the native percent whenever the
capability exists; otherwise derives both exactly as the parameter form. -/
def calculateDownloadMetricsOfItem (iv : ItemMetricsView) (nowSecs : ℚ) :
    DownloadMetrics :=
  let downloadedBytes : ℚ := (iv.receivedBytes : ℚ)
  let totalBytes : ℚ := (iv.totalBytes : ℚ)
  let elapsedTimeSecs := nowSecs - iv.startTimeSecs
  let r0 : ℚ := (iv.nativeBytesPerSecond).getD 0
  let rate := if 0 < elapsedTimeSecs ∧ r0 = 0 then downloadedBytes / elapsedTimeSecs else r0
  let eta :=
    if 0 < elapsedTimeSecs ∧ 0 < rate then (totalBytes - downloadedBytes) / rate else 0
  let percent :=
    match iv.nativePercentComplete with
    | some p => p
    | none =>
        if 0 < totalBytes then min (round2 (downloadedBytes / totalBytes * 100)) 100 else 0
  { percentCompleted := percent
    downloadRateBytesPerSecond := rate
    estimatedTimeRemainingSeconds := eta }

/-- JavaScript truthiness of an optional string value: undefined and the empty
string are falsy, every other string is truthy. -/
def jsTruthy : Option String → Bool
  | none => false
  | some s => !(s = "")

/-- POSIX path.isAbsolute, the platform variant relevant to the tests of
src/test/utils.test.ts: a path is absolute when its first character is a
slash. -/
def isAbsolutePath (p : String) : Bool :=
  match p.toList with
  | c :: _ => c = '/'
  | [] => false

/-- POSIX path.join of two segments, for inputs free of dot-segments
(the only inputs this code base joins). -/
def pathJoin (a b : String) : String :=
  if a = "" then b else if a.endsWith "/" then a ++ b else a ++ "/" ++ b

/-- POSIX path.basename for paths without a trailing slash: the part after the
final slash. -/
def basenameOf (p : String) : String := (p.splitOn "/").getLastD p

/-- Truthiness of POSIX path.extname: non-empty exactly when the basename
contains a dot after its first character. -/
def hasExtension (p : String) : Bool := ((basenameOf p).toList.drop 1).contains '.'

/-- getFilenameFromMime (src/src/utils.ts lines 26-34): appends an extension to
the name exactly when the external MIME lookup (the ext-name collaborator,
passed as a function) returns exactly one plausible extension. -/
def getFilenameFromMime (mimeExtensions : String → List String) (name mime : String) :
    String :=
  match mimeExtensions mime with
  | [ext] => name ++ "." ++ ext
  | _ => name

/-- determineFilePath (src/src/utils.ts lines 39-68).  The on-disk uniqueness
transform unusedFilenameSync is the only filesystem-touching step and is passed
as a function; the successful result carries the number of times it was
consulted, so that freedom from filesystem access is visible in the type.
A supplied directory that is not absolute fails before anything else. -/
def determineFilePath (mimeExtensions : String → List String)
    (unusedFilenameOnDisk : String → String) (defaultDownloadsDir : String)
    (directory saveAsFilename : Option String)
    (itemFilename itemMimeType : String) (overwrite : Bool) :
    Except String (String × Nat) :=
  if jsTruthy directory && !(isAbsolutePath (directory.getD "")) then
    Except.error "The `directory` option must be an absolute path"
  else
    let dir := if jsTruthy directory then directory.getD "" else defaultDownloadsDir
    if jsTruthy saveAsFilename then
      Except.ok (pathJoin dir (saveAsFilename.getD ""), 0)
    else
      let filename := itemFilename
      let name :=
        if hasExtension filename then filename
        else getFilenameFromMime mimeExtensions filename itemMimeType
      if overwrite then Except.ok (pathJoin dir name, 0)
      else Except.ok (unusedFilenameOnDisk (pathJoin dir name), 1)

/-- The caller-supplied request fields inspected by the validation at the top of
ElectronDownloadManager.download (src/src/ElectronDownloadManager.ts lines
611-627), plus the url forwarded to the platform.  saveDialogOptions is an
object, so its JavaScript truthiness is its presence. -/
structure DownloadRequest where
  url : String
  saveAsFilename : Option String
  saveDialogOptions : Bool
deriving DecidableEq, Repr

/-- Platform side effects that download performs after validation, in order:
registering the one-shot will-download handler, then starting the transfer. -/
inductive PlatformCall where
  | registerWillDownloadOnce
  | downloadURL (url : String)
deriving DecidableEq, Repr

/-- ElectronDownloadManager.download (src/src/ElectronDownloadManager.ts lines
611-627): validates the request, then mints the id and issues the two platform
calls.  A validation failure is thrown before either platform call, so the
error branch carries no calls; user lifecycle callbacks are only ever invoked
from the will-download handler the success branch registers. -/
def downloadValidated (freshId : String) (p : DownloadRequest) :
    Except String (String × List PlatformCall) :=
  if !(jsTruthy p.saveAsFilename) && !p.saveDialogOptions then
    Except.error "You must define either saveAsFilename or saveDialogOptions to start a download"
  else if jsTruthy p.saveAsFilename && p.saveDialogOptions then
    Except.error "You cannot define both saveAsFilename and saveDialogOptions to start a download"
  else
    Except.ok (freshId, [PlatformCall.registerWillDownloadOnce, PlatformCall.downloadURL p.url])

/-- Observable outcome of one dispatch through the CallbackDispatcher
(src/CallbackDispatcher.ts): whether the user callback ran, the debug log lines
emitted, the error forwarded to the user's onError callback, and the exception
(if any) escaping the dispatcher to its caller. -/
structure DispatchOutcome where
  userCallbackRan : Bool
  logLines : List String
  forwardedToOnError : Option String
  escaped : Option String
deriving DecidableEq, Repr

/-- CallbackDispatcher.handleError (src/CallbackDispatcher.ts lines 94-100):
forwards the error to onError when present.  The call is not guarded by any
try/catch, so this returns the exception onError itself throws, which then
escapes. A user callback is modelled as a function into Except, the error case
carrying the thrown message. -/
def handleError (onErrorCb : Option (String → Except String Unit)) (e : String) :
    Option String :=
  match onErrorCb with
  | none => none
  | some f =>
      match f e with
      | Except.ok _ => none
      | Except.error e2 => some e2

/-- One lifecycle dispatch method of the CallbackDispatcher
(src/CallbackDispatcher.ts lines 22-92; the five methods onDownloadStarted,
onDownloadProgress, onDownloadCompleted, onDownloadCancelled and
onDownloadInterrupted are textually identical up to the event name, so they are
modelled by this single function taking the event name, the optional
user-supplied callback for that event, and the optional onError callback). -/
def dispatchLifecycle (eventName : String)
    (userCallback : Option (DownloadData → Except String Unit))
    (onErrorCb : Option (String → Except String Unit))
    (downloadDataId : String) (d : DownloadData) : DispatchOutcome :=
  match userCallback with
  | none =>
      { userCallbackRan := false, logLines := [], forwardedToOnError := none, escaped := none }
  | some f =>
      let callLine := "[" ++ downloadDataId ++ "] Calling " ++ eventName
      match f d with
      | Except.ok _ =>
          { userCallbackRan := true, logLines := [callLine]
            forwardedToOnError := none, escaped := none }
      | Except.error e =>
          let errLine := "[" ++ downloadDataId ++ "] Error during " ++ eventName ++ ": " ++ e
          { userCallbackRan := true
            logLines := [callLine, errLine]
            forwardedToOnError := if onErrorCb.isSome then some e else none
            escaped := handleError onErrorCb e }

/-- One observation of the platform item made by a tick of the save-as dialog
poll (src/src/DownloadInitiator.ts lines 123-206): the save path currently set
(empty while the dialog is still open) and the transfer state. -/
structure PollTick where
  savePath : String
  state : ItemState
deriving DecidableEq, Repr

/-- Lifecycle dispatches visible to the user, with the flag value passed along
for a cancellation. -/
inductive LifecycleDispatch where
  | downloadStarted
  | downloadProgress
  | downloadCompleted
  | downloadCancelled (cancelledFromSaveAsDialog : Bool)
  | downloadInterrupted
deriving DecidableEq, Repr

/-- The save-as interactive poll, initSaveAsInteractiveDownload
(src/src/DownloadInitiator.ts lines 104-207), projected onto the lifecycle
dispatches each tick produces.  Each tick re-pauses the item defensively, then:
a set save path stops the poll, dispatches onDownloadStarted and, when the
transfer already completed before the listeners attached, onDownloadCompleted
immediately; otherwise a cancelled state stops the poll and dispatches
onDownloadCancelled with cancelledFromSaveAsDialog set; otherwise the poll
keeps waiting.  The argument lists the successive observations of the item. -/
def pollSaveAs : List PollTick → List LifecycleDispatch
  | [] => []
  | t :: rest =>
    if t.savePath ≠ "" then
      LifecycleDispatch.downloadStarted ::
        (if t.state = ItemState.completed then [LifecycleDispatch.downloadCompleted] else [])
    else if t.state = ItemState.cancelled then
      [LifecycleDispatch.downloadCancelled true]
    else
      pollSaveAs rest

end EDM

namespace Sha256

/-- Modulus of 32-bit words. -/
def M32 : Nat := 4294967296

/-- Addition modulo 2 to the 32. -/
def add32 (a b : Nat) : Nat := (a + b) % M32

/-- Right rotation of a 32-bit word. -/
def rotr (n x : Nat) : Nat := ((x >>> n) ||| (x <<< (32 - n))) % M32

/-- Logical right shift. -/
def shr (n x : Nat) : Nat := x >>> n

/-- Upper-case sigma-0 of FIPS 180-4. -/
def bigSigma0 (x : Nat) : Nat := (rotr 2 x) ^^^ (rotr 13 x) ^^^ (rotr 22 x)

/-- Upper-case sigma-1 of FIPS 180-4. -/
def bigSigma1 (x : Nat) : Nat := (rotr 6 x) ^^^ (rotr 11 x) ^^^ (rotr 25 x)

/-- Lower-case sigma-0 of FIPS 180-4. -/
def smallSigma0 (x : Nat) : Nat := (rotr 7 x) ^^^ (rotr 18 x) ^^^ (shr 3 x)

/-- Lower-case sigma-1 of FIPS 180-4. -/
def smallSigma1 (x : Nat) : Nat := (rotr 17 x) ^^^ (rotr 19 x) ^^^ (shr 10 x)

/-- Choice function: bitwise complement taken within 32 bits. -/
def chFn (x y z : Nat) : Nat := (x &&& y) ^^^ ((x ^^^ 4294967295) &&& z)

/-- Majority function. -/
def majFn (x y z : Nat) : Nat := (x &&& y) ^^^ (x &&& z) ^^^ (y &&& z)

/-- The 64 round constants of sha-256 (FIPS 180-4 section 4.2.2), written in
decimal. -/
def roundConstants : List Nat :=
  [1116352408, 1899447441, 3049323471, 3921009573, 961987163, 1508970993,
   2453635748, 2870763221, 3624381080, 310598401, 607225278, 1426881987,
   1925078388, 2162078206, 2614888103, 3248222580, 3835390401, 4022224774,
   264347078, 604807628, 770255983, 1249150122, 1555081692, 1996064986,
   2554220882, 2821834349, 2952996808, 3210313671, 3336571891, 3584528711,
   113926993, 338241895, 666307205, 773529912, 1294757372, 1396182291,
   1695183700, 1986661051, 2177026350, 2456956037, 2730485921, 2820302411,
   3259730800, 3345764771, 3516065817, 3600352804, 4094571909, 275423344,
   430227734, 506948616, 659060556, 883997877, 958139571, 1322822218,
   1537002063, 1747873779, 1955562222, 2024104815, 2227730452, 2361852424,
   2428436474, 2756734187, 3204031479, 3329325298]

/-- The initial hash value of sha-256 (FIPS 180-4 section 5.3.3), in decimal. -/
def initialHash : List Nat :=
  [1779033703, 3144134277, 1013904242, 2773480762,
   1359893119, 2600822924, 528734635, 1541459225]

/-- Big-endian 8-byte encoding of the message length in bits. -/
def lengthBytes (lenBits : Nat) : List Nat :=
  (List.range 8).map (fun i => (lenBits >>> (8 * (7 - i))) % 256)

/-- Standard sha-256 padding: a 0x80 byte, zeros to 56 mod 64, the length. -/
def padMessage (msg : List Nat) : List Nat :=
  let k := (119 - msg.length % 64) % 64
  msg ++ [128] ++ List.replicate k 0 ++ lengthBytes (8 * msg.length)

/-- Big-endian grouping of bytes into 32-bit words. -/
def bytesToWords : List Nat → List Nat
  | b0 :: b1 :: b2 :: b3 :: rest =>
      (b0 <<< 24 ||| b1 <<< 16 ||| b2 <<< 8 ||| b3) :: bytesToWords rest
  | _ => []

/-- Splitting the padded byte list into 16-word blocks; the fuel argument is
the byte count, which bounds the number of blocks. -/
def toBlocksFuel : Nat → List Nat → List (List Nat)
  | 0, _ => []
  | _, [] => []
  | fuel + 1, bytes => bytesToWords (bytes.take 64) :: toBlocksFuel fuel (bytes.drop 64)

/-- Splitting the padded byte list into 16-word blocks. -/
def toBlocks (bytes : List Nat) : List (List Nat) := toBlocksFuel bytes.length bytes

/-- Message-schedule extension from 16 to 64 words. -/
def extendSchedule (w : List Nat) : Nat → List Nat
  | 0 => w
  | fuel + 1 =>
      let n := w.length
      let next :=
        add32 (add32 (smallSigma1 (w.getD (n - 2) 0)) (w.getD (n - 7) 0))
          (add32 (smallSigma0 (w.getD (n - 15) 0)) (w.getD (n - 16) 0))
      extendSchedule (w ++ [next]) fuel

/-- The eight working variables of the compression function. -/
structure HashState where
  a : Nat
  b : Nat
  c : Nat
  d : Nat
  e : Nat
  f : Nat
  g : Nat
  h : Nat
deriving DecidableEq, Repr

/-- One round of the sha-256 compression function. -/
def compressRound (st : HashState) (kw : Nat × Nat) : HashState :=
  let t1 := add32 (add32 (add32 st.h (bigSigma1 st.e)) (add32 (chFn st.e st.f st.g) kw.1)) kw.2
  let t2 := add32 (bigSigma0 st.a) (majFn st.a st.b st.c)
  { a := add32 t1 t2, b := st.a, c := st.b, d := st.c,
    e := add32 st.d t1, f := st.e, g := st.f, h := st.g }

/-- Processing of one 512-bit block into the running hash value. -/
def processBlock (hv : List Nat) (block : List Nat) : List Nat :=
  let w := extendSchedule block 48
  let st0 : HashState :=
    { a := hv.getD 0 0, b := hv.getD 1 0, c := hv.getD 2 0, d := hv.getD 3 0,
      e := hv.getD 4 0, f := hv.getD 5 0, g := hv.getD 6 0, h := hv.getD 7 0 }
  let st := (roundConstants.zip w).foldl compressRound st0
  [add32 (hv.getD 0 0) st.a, add32 (hv.getD 1 0) st.b, add32 (hv.getD 2 0) st.c,
   add32 (hv.getD 3 0) st.d, add32 (hv.getD 4 0) st.e, add32 (hv.getD 5 0) st.f,
   add32 (hv.getD 6 0) st.g, add32 (hv.getD 7 0) st.h]

/-- Lower-case hexadecimal digit. -/
def hexDigitChar (n : Nat) : Char :=
  if n < 10 then Char.ofNat (48 + n) else Char.ofNat (87 + n)

/-- Lower-case hexadecimal rendering of one 32-bit word. -/
def wordToHex (w : Nat) : List Char :=
  (List.range 8).map (fun i => hexDigitChar ((w >>> (4 * (7 - i))) % 16))

/-- The sha-256 hex digest of a byte list, as node's
crypto.createHash followed by digest produces it. -/
def sha256Hex (msg : List Nat) : String :=
  let hv := (toBlocks (padMessage msg)).foldl processBlock initialHash
  String.mk (hv.flatMap wordToHex)

/-- Byte encoding of the ASCII strings hashed here (decimal digit strings, so
UTF-8 agrees with the code points). -/
def stringToBytes (s : String) : List Nat := s.toList.map Char.toNat

end Sha256

namespace EDM

/-- generateRandomId (src/src/utils.ts lines 14-23): the concatenation of the
decimal renderings of the current wall-clock milliseconds and of the draw
floor(Math.random() * 1000) is sha-256 hashed and the hex digest truncated to
its first 6 characters. -/
def generateRandomId (currentTimeMs randomNum : Nat) : String :=
  (Sha256.sha256Hex (Sha256.stringToBytes (toString currentTimeMs ++ toString randomNum))).take 6

/-- An initiation request accepted by the manager: its caller-visible content
(the url), and the wall-clock millisecond and random draw observed when
ElectronDownloadManager.download minted its id.  The id is minted from the two
observations alone. -/
structure InitiationRequest where
  url : String
  observedTimeMs : Nat
  randomDraw : Nat
deriving DecidableEq, Repr

/-- The correlation id download mints for a request
(src/src/ElectronDownloadManager.ts line 620). -/
def mintedId (r : InitiationRequest) : String :=
  generateRandomId r.observedTimeMs r.randomDraw

/-- Modelled from the spec: the item as seen through the v3 DownloadInitiator's
pause/resume instrumentation, which is absent from this snapshot
(src/src/DownloadInitiator.ts is an earlier revision without the flag, while
test/DownloadInitiator.test.ts drives the missing revision through its
_userInitiatedPause field).  Spec 4.5, pause race guard: the wrapped pause
records a user-initiated pause and detaches the progress listener; the wrapped
resume reattaches it. -/
structure WrappedItemState where
  paused : Bool
  userInitiatedPause : Bool
  updatedListenerAttached : Bool
  doneListenerAttached : Bool
deriving DecidableEq, Repr

/-- Modelled from the spec: the actions that can touch the item between the
begin notification and the end of initialization, plus the platform's
progressing notification. -/
inductive InitAction where
  | defensivePause
  | callerPause
  | callerResume
  | attachAndAutoResume
  | progressingUpdate
deriving DecidableEq, Repr

/-- State of one initialization run: the instrumented item and the number of
onDownloadProgress dispatches made so far. -/
structure InitRun where
  item : WrappedItemState
  progressDispatches : Nat
deriving DecidableEq, Repr

/-- Modelled from the spec (spec 4.5, pause race guard; the v3
DownloadInitiator implementing it is absent from this snapshot): the
defensive pause on the begin notification uses the raw item and records
nothing; a caller pause goes through the wrapper, setting the
user-initiated-pause flag and detaching the progress listener; a caller
resume goes through the wrapper and reattaches it; at the end of
initialization the initiator attaches the updated and done listeners and
resumes only when the flag is clear; the platform emits a progressing update
only while the item is not paused, and the dispatch happens only when the
progress listener is attached. -/
def initStep (s : InitRun) : InitAction → InitRun
  | InitAction.defensivePause =>
      { s with item := { s.item with paused := true } }
  | InitAction.callerPause =>
      let it := { s.item with paused := true, userInitiatedPause := true }
      { s with item := { it with updatedListenerAttached := false } }
  | InitAction.callerResume =>
      { s with item := { s.item with paused := false, updatedListenerAttached := true } }
  | InitAction.attachAndAutoResume =>
      let it := { s.item with updatedListenerAttached := true, doneListenerAttached := true }
      { s with item := if it.userInitiatedPause then it else { it with paused := false } }
  | InitAction.progressingUpdate =>
      if s.item.paused then s
      else if s.item.updatedListenerAttached then
        { s with progressDispatches := s.progressDispatches + 1 }
      else s

/-- Folding a list of actions over the initialization state. -/
def initRun (s : InitRun) (l : List InitAction) : InitRun := l.foldl initStep s

/-- The state right after the platform hands over the item: not paused, no flag,
no listeners, no dispatches. -/
def initialInitRun : InitRun :=
  { item :=
      { paused := false, userInitiatedPause := false,
        updatedListenerAttached := false, doneListenerAttached := false }
    progressDispatches := 0 }

/-- Recorded position of an interruption: observed mid-transfer via updated, or
at the final done notification (the source stores the strings in-progress and
completed). -/
inductive InterruptedVia where
  | inProgress
  | completed
deriving DecidableEq, Repr

/-- The three states the platform's done notification can carry. -/
inductive DoneState where
  | completed
  | cancelled
  | interrupted
deriving DecidableEq, Repr

/-- Effects of one run of the done handler: the lifecycle dispatches made, the
interruptedVia value left on the Download Record, and the cleanup effects. -/
structure DoneEffects where
  dispatched : List LifecycleDispatch
  interruptedVia : Option InterruptedVia
  updatedListenerDetached : Bool
  doneListenerDetached : Bool
  recordRemoved : Bool
deriving DecidableEq, Repr

/-- Modelled from the spec: the dispatch switch of the v3
DownloadInitiator.generateItemOnDone, absent from this snapshot (the revisions
present predate the interrupted handling of changelog 2.3.0, while
test/DownloadInitiator.test.ts asserts it).  Spec 4.5, Active to Terminal via
done: completed dispatches onDownloadCompleted; cancelled dispatches
onDownloadCancelled, passing the record with its current dialog-cancel flag;
interrupted sets interruptedVia to completed and dispatches
onDownloadInterrupted. -/
def doneDispatch (recordDialogFlag : Bool) (via0 : Option InterruptedVia) :
    DoneState → List LifecycleDispatch × Option InterruptedVia
  | DoneState.completed => ([LifecycleDispatch.downloadCompleted], via0)
  | DoneState.cancelled => ([LifecycleDispatch.downloadCancelled recordDialogFlag], via0)
  | DoneState.interrupted =>
      ([LifecycleDispatch.downloadInterrupted], some InterruptedVia.completed)

/-- Modelled from the spec: the v3 done handler runs the dispatch switch and
then cleanup unconditionally; cleanup detaches both listeners from the item and
notifies the owning manager to remove the Download Record (spec 4.5). -/
def itemOnDone (recordDialogFlag : Bool) (via0 : Option InterruptedVia) (st : DoneState) :
    DoneEffects :=
  let r := doneDispatch recordDialogFlag via0 st
  { dispatched := r.1
    interruptedVia := r.2
    updatedListenerDetached := true
    doneListenerDetached := true
    recordRemoved := true }

/-- Modelled from the spec: the lifecycle points at which the v3 code writes the
Download Record's percentCompleted (the v3 DownloadInitiator.updateProgress is
absent from this snapshot and is mocked by its tests; spec 3, 4.2 and 4.5).
Creation and start write 0; every progressing update writes the percent of
calculateDownloadMetrics computed from the raw platform byte counters; the
completed-before-listeners race writes 100; a dialog cancellation writes 0.
The byte counters are the raw platform values and may be out of range. -/
inductive RecordPercentEvent where
  | started
  | progressUpdate (receivedBytes totalBytes : Nat) (startTimeSecs nowSecs : ℚ)
  | completedBeforeListeners
  | cancelledFromDialog

/-- The percent value the Download Record holds after one lifecycle event; each
of these lifecycle points overwrites the previous value. -/
def percentAfter (_p : ℚ) : RecordPercentEvent → ℚ
  | RecordPercentEvent.started => 0
  | RecordPercentEvent.progressUpdate r t s n =>
      (calculateDownloadMetrics (t : ℚ) (r : ℚ) s n).percentCompleted
  | RecordPercentEvent.completedBeforeListeners => 100
  | RecordPercentEvent.cancelledFromDialog => 0

/-- The percent value of the Download Record after a list of lifecycle events,
starting from the 0 the DownloadData constructor writes. -/
def recordPercent (events : List RecordPercentEvent) : ℚ :=
  events.foldl percentAfter 0

/-- Two-decimal rounding of a nonnegative rational is nonnegative. -/
theorem round2_nonneg (x : ℚ) (hx : 0 ≤ x) : 0 ≤ round2 x := by
  unfold round2
  have h1 : (0 : ℤ) ≤ round (x * 100) := by
    rw [round_eq]
    apply Int.le_floor.mpr
    push_cast
    linarith
  have h2 : (0 : ℚ) ≤ (round (x * 100) : ℚ) := by exact_mod_cast h1
  linarith

/-- The percent field of calculateDownloadMetrics, written out. -/
theorem calculateDownloadMetrics_percent_eq (t d s n : ℚ) :
    (calculateDownloadMetrics t d s n).percentCompleted
      = if 0 < t then min (round2 (d / t * 100)) 100 else 0 := rfl

/-- The percent field of calculateDownloadMetrics lies in the unit interval
scaled to 100 whenever the downloaded byte count is nonnegative. -/
theorem percentCompleted_bounds (t d s n : ℚ) (hd : 0 ≤ d) :
    0 ≤ (calculateDownloadMetrics t d s n).percentCompleted ∧
      (calculateDownloadMetrics t d s n).percentCompleted ≤ 100 := by
  rw [calculateDownloadMetrics_percent_eq]
  by_cases ht : 0 < t
  · simp only [ht, if_true]
    constructor
    · apply le_min
      · apply round2_nonneg
        have : 0 ≤ d / t := div_nonneg hd ht.le
        positivity
      · norm_num
    · exact min_le_right _ _
  · simp only [ht, if_false]
    norm_num

/-- C10: for every Download Record the four transfer-state predicates
isDownloadInProgress, isDownloadCompleted, isDownloadCancelled and
isDownloadInterrupted are pairwise mutually exclusive: each compares the single
value of the item's state to a distinct constant, so no two of them hold
together. -/
theorem downloadState_predicates_exclusive (d : DownloadData) :
    (d.isDownloadInProgress && d.isDownloadCompleted) = false ∧
    (d.isDownloadInProgress && d.isDownloadCancelled) = false ∧
    (d.isDownloadInProgress && d.isDownloadInterrupted) = false ∧
    (d.isDownloadCompleted && d.isDownloadCancelled) = false ∧
    (d.isDownloadCompleted && d.isDownloadInterrupted) = false ∧
    (d.isDownloadCancelled && d.isDownloadInterrupted) = false := by
  rcases d with ⟨id0, rf, pc, cf, dr, eta, ⟨st, pa, re, rb, tb⟩⟩
  cases st <;>
    simp [DownloadData.isDownloadInProgress, DownloadData.isDownloadCompleted,
      DownloadData.isDownloadCancelled, DownloadData.isDownloadInterrupted]

/-- A concrete Download Record for the closed instance below. -/
def sampleDownloadData : DownloadData :=
  { id := "abc123", resolvedFilename := "file.txt", percentCompleted := 0,
    cancelledFromSaveAsDialog := false, downloadRateBytesPerSecond := 0,
    estimatedTimeRemainingSeconds := 0,
    item := { state := ItemState.progressing, paused := false, resumable := true,
              receivedBytes := 50, totalBytes := 100 } }

/-- Closed instance of the C10 theorem at a concrete record. -/
theorem downloadState_predicates_exclusive_witness :
    (sampleDownloadData.isDownloadInProgress && sampleDownloadData.isDownloadCompleted) = false :=
  (downloadState_predicates_exclusive sampleDownloadData).1

/-- C4: for inputs with positive totalBytes, calculateDownloadMetrics returns
the two-decimal rounding of downloadedBytes/totalBytes*100 capped at 100; for
totalBytes not positive it returns 0; for every valid input (nonnegative
downloaded bytes) the result lies in the interval from 0 to 100; and the
DownloadItem overload computes the same percent on its derived path, when the
native percent capability is absent. -/
theorem calculateDownloadMetrics_percent_spec (t d s n : ℚ) (hd : 0 ≤ d) :
    (0 < t →
        (calculateDownloadMetrics t d s n).percentCompleted
          = min (round2 (d / t * 100)) 100) ∧
    (¬ 0 < t → (calculateDownloadMetrics t d s n).percentCompleted = 0) ∧
    0 ≤ (calculateDownloadMetrics t d s n).percentCompleted ∧
    (calculateDownloadMetrics t d s n).percentCompleted ≤ 100 ∧
    (∀ (iv : ItemMetricsView) (now2 : ℚ), iv.nativePercentComplete = none →
        (calculateDownloadMetricsOfItem iv now2).percentCompleted
          = (calculateDownloadMetrics (iv.totalBytes : ℚ) (iv.receivedBytes : ℚ)
              iv.startTimeSecs now2).percentCompleted) := by
  refine ⟨?_, ?_, (percentCompleted_bounds t d s n hd).1,
    (percentCompleted_bounds t d s n hd).2, ?_⟩
  · intro ht
    rw [calculateDownloadMetrics_percent_eq]
    simp [ht]
  · intro ht
    rw [calculateDownloadMetrics_percent_eq]
    simp [ht]
  · intro iv now2 hnative
    rw [calculateDownloadMetrics_percent_eq]
    show (match iv.nativePercentComplete with
      | some p => p
      | none =>
          if 0 < (iv.totalBytes : ℚ) then
            min (round2 ((iv.receivedBytes : ℚ) / (iv.totalBytes : ℚ) * 100)) 100
          else 0) = _
    rw [hnative]

/-- Closed instance of the C4 theorem: 50 of 100 bytes is reported as the capped
rounding of 50 percent. -/
theorem calculateDownloadMetrics_percent_spec_witness :
    (0 : ℚ) ≤ 50 ∧
      (calculateDownloadMetrics 100 50 0 10).percentCompleted
        = min (round2 (50 / 100 * 100)) 100 :=
  ⟨by norm_num, (calculateDownloadMetrics_percent_spec 100 50 0 10 (by norm_num)).1 (by norm_num)⟩

/-- Every lifecycle write leaves the record percent between 0 and 100, whatever
value it overwrote: the fixed writes are 0 and 100, and a progressing update
writes the clamped metric, whose byte counters are nonnegative naturals. -/
theorem percentAfter_bounds (p : ℚ) (e : RecordPercentEvent) :
    0 ≤ percentAfter p e ∧ percentAfter p e ≤ 100 := by
  cases e with
  | started => exact ⟨le_rfl, by norm_num [percentAfter]⟩
  | progressUpdate r t s n =>
      exact percentCompleted_bounds (t : ℚ) (r : ℚ) s n (by positivity)
  | completedBeforeListeners => exact ⟨by norm_num [percentAfter], le_rfl⟩
  | cancelledFromDialog => exact ⟨le_rfl, by norm_num [percentAfter]⟩

/-- C5: at every point of the Download Record's lifecycle, after any sequence
of lifecycle writes, percentCompleted lies between 0 and 100 — including
progressing updates whose raw byte counters are out of range (received greater
than total, or total equal to 0), which the clamped metric maps into range. -/
theorem recordPercent_in_range (events : List RecordPercentEvent) :
    0 ≤ recordPercent events ∧ recordPercent events ≤ 100 := by
  unfold recordPercent
  suffices h : ∀ (l : List RecordPercentEvent) (p : ℚ), 0 ≤ p → p ≤ 100 →
      0 ≤ l.foldl percentAfter p ∧ l.foldl percentAfter p ≤ 100 by
    exact h events 0 le_rfl (by norm_num)
  intro l
  induction l with
  | nil => intro p h0 h1; exact ⟨h0, h1⟩
  | cons e rest ih =>
      intro p h0 h1
      have hb := percentAfter_bounds p e
      simpa using ih (percentAfter p e) hb.1 hb.2

/-- Closed instance of the C5 theorem on a lifecycle whose progressing updates
report out-of-range raw counters: 150 bytes received of a 100-byte total, then
a zero total. -/
theorem recordPercent_in_range_witness :
    0 ≤ recordPercent
        [RecordPercentEvent.started, RecordPercentEvent.progressUpdate 150 100 0 10,
         RecordPercentEvent.progressUpdate 7 0 0 10] ∧
      recordPercent
        [RecordPercentEvent.started, RecordPercentEvent.progressUpdate 150 100 0 10,
         RecordPercentEvent.progressUpdate 7 0 0 10] ≤ 100 :=
  recordPercent_in_range _

/-- C3: when every poll tick observes an empty save path (the dialog was never
confirmed) and some tick observes the cancelled state (the user dismissed the
dialog), the poll stops and produces exactly one dispatch: onDownloadCancelled
with cancelledFromSaveAsDialog set — in particular onDownloadStarted is never
dispatched for that download. -/
theorem saveAsDialog_cancel_dispatches_once (ticks : List PollTick)
    (hnopath : ∀ t ∈ ticks, t.savePath = "")
    (hcancel : ∃ t ∈ ticks, t.state = ItemState.cancelled) :
    pollSaveAs ticks = [LifecycleDispatch.downloadCancelled true] := by
  induction ticks with
  | nil => rcases hcancel with ⟨t, ht, _⟩; cases ht
  | cons t rest ih =>
      have hp : t.savePath = "" := hnopath t (List.mem_cons_self t rest)
      by_cases hc : t.state = ItemState.cancelled
      · unfold pollSaveAs
        simp [hp, hc]
      · have hex : ∃ u ∈ rest, u.state = ItemState.cancelled := by
          rcases hcancel with ⟨u, hu, hus⟩
          rcases List.mem_cons.mp hu with h | h
          · exact absurd (h ▸ hus) hc
          · exact ⟨u, h, hus⟩
        have hrest := ih (fun u hu => hnopath u (List.mem_cons_of_mem _ hu)) hex
        unfold pollSaveAs
        simp [hp, hc, hrest]

/-- Closed instance of the C3 theorem: two waiting ticks followed by a
dismissal. -/
theorem saveAsDialog_cancel_dispatches_once_witness :
    ((∀ t ∈ [PollTick.mk "" ItemState.progressing, PollTick.mk "" ItemState.cancelled],
        t.savePath = "") ∧
      (∃ t ∈ [PollTick.mk "" ItemState.progressing, PollTick.mk "" ItemState.cancelled],
        t.state = ItemState.cancelled)) ∧
    pollSaveAs [PollTick.mk "" ItemState.progressing, PollTick.mk "" ItemState.cancelled]
      = [LifecycleDispatch.downloadCancelled true] :=
  ⟨⟨by decide, by decide⟩,
    saveAsDialog_cancel_dispatches_once _ (by decide) (by decide)⟩

/-- C7: a request supplying both saveAsFilename (a truthy string) and
saveDialogOptions fails with the configuration error before either platform
call is issued; since the error branch registers no will-download handler and
starts no transfer, no user lifecycle callback can ever be invoked for the
request. -/
theorem download_rejects_conflicting_options (freshId : String) (p : DownloadRequest)
    (hsave : jsTruthy p.saveAsFilename = true) (hdialog : p.saveDialogOptions = true) :
    downloadValidated freshId p
      = Except.error
          "You cannot define both saveAsFilename and saveDialogOptions to start a download" := by
  unfold downloadValidated
  simp [hsave, hdialog]

/-- Closed instance of the C7 theorem at a concrete conflicting request. -/
theorem download_rejects_conflicting_options_witness :
    (jsTruthy (DownloadRequest.mk "https://example.com/f.txt" (some "file.zip") true).saveAsFilename
        = true ∧
      (DownloadRequest.mk "https://example.com/f.txt" (some "file.zip") true).saveDialogOptions
        = true) ∧
    downloadValidated "abc123" (DownloadRequest.mk "https://example.com/f.txt" (some "file.zip") true)
      = Except.error
          "You cannot define both saveAsFilename and saveDialogOptions to start a download" :=
  ⟨⟨by decide, by decide⟩,
    download_rejects_conflicting_options _ _ (by decide) (by decide)⟩

/-- C8: called with a supplied directory that is not an absolute path, the path
resolver fails with the configuration error, whatever the other arguments, the
default directory, the MIME lookup and the on-disk uniqueness transform are —
in particular the result never consults the filesystem-touching transform. -/
theorem determineFilePath_relative_directory_error
    (mimeExtensions : String → List String) (unusedFilenameOnDisk : String → String)
    (defaultDownloadsDir : String) (d : String) (saveAsFilename : Option String)
    (itemFilename itemMimeType : String) (overwrite : Bool)
    (hsupplied : d ≠ "") (hrel : isAbsolutePath d = false) :
    determineFilePath mimeExtensions unusedFilenameOnDisk defaultDownloadsDir
      (some d) saveAsFilename itemFilename itemMimeType overwrite
      = Except.error "The `directory` option must be an absolute path" := by
  unfold determineFilePath
  have h1 : jsTruthy (some d) = true := by simp [jsTruthy, hsupplied]
  simp [h1, hrel]

/-- Closed instance of the C8 theorem at the relative directory of the repo's
own test (directory equal to the string downloads). -/
theorem determineFilePath_relative_directory_error_witness :
    (("downloads" : String) ≠ "" ∧ isAbsolutePath "downloads" = false) ∧
    determineFilePath (fun _ => []) (fun s => s) "/home/user/Downloads"
        (some "downloads") none "example.txt" "text/plain" false
      = Except.error "The `directory` option must be an absolute path" :=
  ⟨⟨by decide, by decide⟩,
    determineFilePath_relative_directory_error _ _ _ _ _ _ _ _ (by decide) (by decide)⟩

/-- C2: when the done notification fires, completed dispatches
onDownloadCompleted, cancelled dispatches onDownloadCancelled, interrupted sets
interruptedVia to completed and dispatches onDownloadInterrupted; and in all
three cases cleanup runs unconditionally, detaching the updated and the done
listener and removing the Download Record. -/
theorem itemOnDone_dispatch_and_cleanup (recordDialogFlag : Bool)
    (via0 : Option InterruptedVia) :
    (∀ st, (itemOnDone recordDialogFlag via0 st).updatedListenerDetached = true ∧
        (itemOnDone recordDialogFlag via0 st).doneListenerDetached = true ∧
        (itemOnDone recordDialogFlag via0 st).recordRemoved = true) ∧
    (itemOnDone recordDialogFlag via0 DoneState.completed).dispatched
        = [LifecycleDispatch.downloadCompleted] ∧
    (itemOnDone recordDialogFlag via0 DoneState.cancelled).dispatched
        = [LifecycleDispatch.downloadCancelled recordDialogFlag] ∧
    (itemOnDone recordDialogFlag via0 DoneState.interrupted).dispatched
        = [LifecycleDispatch.downloadInterrupted] ∧
    (itemOnDone recordDialogFlag via0 DoneState.interrupted).interruptedVia
        = some InterruptedVia.completed := by
  refine ⟨fun st => ?_, rfl, rfl, rfl, rfl⟩
  cases st <;> exact ⟨rfl, rfl, rfl⟩

/-- Closed instance of the C2 theorem: an interruption observed at done on a
record with no prior interruption. -/
theorem itemOnDone_dispatch_and_cleanup_witness :
    (itemOnDone false none DoneState.interrupted).interruptedVia
        = some InterruptedVia.completed ∧
      (itemOnDone false none DoneState.interrupted).recordRemoved = true :=
  ⟨(itemOnDone_dispatch_and_cleanup false none).2.2.2.2,
    ((itemOnDone_dispatch_and_cleanup false none).1 DoneState.interrupted).2.2⟩

/-- C6 counterexample: the claim says an exception thrown by onError itself is
swallowed and never propagates out of the dispatcher; but handleError invokes
onError unguarded, so when the started callback throws and onError throws in
turn, the onError exception escapes the dispatcher to its caller. -/
theorem dispatcher_onError_throw_escapes_cx :
    (dispatchLifecycle "onDownloadStarted"
        (some fun _ => Except.error "boom")
        (some fun _ => Except.error "onError boom")
        "abc123" sampleDownloadData).escaped = some "onError boom" := rfl

/-- C6 amended: a missing user callback is a silent no-op; an exception thrown
by a user lifecycle callback is caught, logged with the download's id, and
forwarded to onError when present (and swallowed when onError is absent); but
when onError itself throws, its exception escapes the dispatcher rather than
being swallowed. -/
theorem dispatcher_fault_isolation_amended (eventName : String)
    (userCallback : Option (DownloadData → Except String Unit))
    (onErrorCb : Option (String → Except String Unit)) (id0 : String) (d : DownloadData) :
    (userCallback = none →
        dispatchLifecycle eventName userCallback onErrorCb id0 d
          = { userCallbackRan := false, logLines := [],
              forwardedToOnError := none, escaped := none }) ∧
    (∀ f e, userCallback = some f → f d = Except.error e →
        (dispatchLifecycle eventName userCallback onErrorCb id0 d).logLines
            = ["[" ++ id0 ++ "] Calling " ++ eventName,
               "[" ++ id0 ++ "] Error during " ++ eventName ++ ": " ++ e] ∧
        (onErrorCb.isSome = true →
            (dispatchLifecycle eventName userCallback onErrorCb id0 d).forwardedToOnError
              = some e) ∧
        (onErrorCb = none →
            (dispatchLifecycle eventName userCallback onErrorCb id0 d).escaped = none) ∧
        (∀ g, onErrorCb = some g → g e = Except.ok () →
            (dispatchLifecycle eventName userCallback onErrorCb id0 d).escaped = none) ∧
        (∀ g e2, onErrorCb = some g → g e = Except.error e2 →
            (dispatchLifecycle eventName userCallback onErrorCb id0 d).escaped = some e2)) := by
  constructor
  · intro h
    rw [h]
    rfl
  · intro f e hf hfe
    subst hf
    simp only [dispatchLifecycle, hfe]
    refine ⟨by trivial, fun hsome => by simp [hsome], fun hnone => ?_, fun g hg hok => ?_,
      fun g e2 hg he2 => ?_⟩
    · simp [hnone, handleError]
    · simp [hg, handleError, hok]
    · simp [hg, handleError, he2]

/-- Closed instance of the C6 amended theorem: the throwing callback is logged
under the download's id and forwarded to the (throwing) onError handler. -/
theorem dispatcher_fault_isolation_amended_witness :
    (dispatchLifecycle "onDownloadStarted"
        (some fun _ => Except.error "boom")
        (some fun _ => Except.error "onError boom")
        "id42" sampleDownloadData).logLines
      = ["[id42] Calling onDownloadStarted", "[id42] Error during onDownloadStarted: boom"] :=
  ((dispatcher_fault_isolation_amended "onDownloadStarted"
      (some fun _ => Except.error "boom") (some fun _ => Except.error "onError boom")
      "id42" sampleDownloadData).2 (fun _ => Except.error "boom") "boom" rfl rfl).1

/-- A request observed at a fixed millisecond with random draw 42. -/
def requestSameMsA : InitiationRequest :=
  { url := "https://example.com/a.zip", observedTimeMs := 1711234567890, randomDraw := 42 }

/-- A different request (another url) observed at the same millisecond with the
same random draw. -/
def requestSameMsB : InitiationRequest :=
  { url := "https://example.com/b.zip", observedTimeMs := 1711234567890, randomDraw := 42 }

/-- The first request again, observed one millisecond later. -/
def requestLaterMs : InitiationRequest :=
  { url := "https://example.com/a.zip", observedTimeMs := 1711234567891, randomDraw := 42 }

/-- C9 counterexample: two distinct accepted initiation requests (their urls
differ) whose initiations observe the same wall-clock millisecond and the same
random draw receive the same minted correlation id — the id is a function of
those two observations alone, so distinctness for every pair of distinct
requests fails, and nothing in download checks the table for reuse. -/
theorem mintedId_collision_cx :
    requestSameMsA ≠ requestSameMsB ∧ mintedId requestSameMsA = mintedId requestSameMsB :=
  ⟨by decide, rfl⟩

set_option maxRecDepth 100000 in
/-- C9 amended: the minted id depends only on the observed wall-clock
millisecond and random draw — in particular it is independent of any
platform-provided identifier and of the request's content — and it is the
6-character truncation of a sha-256 hex digest, fresh per initiation; ids of
two requests are therefore distinct only when their observations produce
different truncated digests (as, for instance, observations one millisecond
apart do), not for every pair of distinct requests. -/
theorem mintedId_independence_amended :
    (∀ (t n : Nat) (u1 u2 : String),
        mintedId { url := u1, observedTimeMs := t, randomDraw := n }
          = mintedId { url := u2, observedTimeMs := t, randomDraw := n }) ∧
    mintedId requestSameMsA ≠ mintedId requestLaterMs ∧
    (mintedId requestSameMsA).length = 6 :=
  ⟨fun _ _ _ _ => rfl, by decide, by decide⟩

/-- Closed instance of the C9 amended theorem: the id ignores the url. -/
theorem mintedId_independence_amended_witness :
    mintedId { url := "x", observedTimeMs := 5, randomDraw := 7 }
      = mintedId { url := "y", observedTimeMs := 5, randomDraw := 7 } :=
  mintedId_independence_amended.1 5 7 "x" "y"

/-- One action that is neither a caller resume nor the end of initialization
keeps a paused item paused and dispatches no progress. -/
theorem initStep_paused_preserved (s : InitRun) (a : InitAction)
    (ha1 : a ≠ InitAction.callerResume) (ha2 : a ≠ InitAction.attachAndAutoResume)
    (hs : s.item.paused = true) :
    (initStep s a).item.paused = true ∧
      (initStep s a).progressDispatches = s.progressDispatches := by
  cases a with
  | defensivePause => exact ⟨rfl, rfl⟩
  | callerPause => exact ⟨rfl, rfl⟩
  | callerResume => exact absurd rfl ha1
  | attachAndAutoResume => exact absurd rfl ha2
  | progressingUpdate => simp [initStep, hs]

/-- No action clears the user-initiated-pause flag. -/
theorem initStep_flag_monotone (s : InitRun) (a : InitAction)
    (hs : s.item.userInitiatedPause = true) :
    (initStep s a).item.userInitiatedPause = true := by
  cases a with
  | defensivePause => exact hs
  | callerPause => rfl
  | callerResume => exact hs
  | attachAndAutoResume => simp [initStep, hs]
  | progressingUpdate =>
      simp only [initStep]
      split
      · exact hs
      · split
        · exact hs
        · exact hs

/-- Over a list of actions without caller resumes and without the
end-of-initialization step, a paused item stays paused and no progress is
dispatched. -/
theorem initRun_paused_preserved (l : List InitAction)
    (hl : ∀ a ∈ l, a ≠ InitAction.callerResume ∧ a ≠ InitAction.attachAndAutoResume) :
    ∀ s : InitRun, s.item.paused = true →
      (initRun s l).item.paused = true ∧
        (initRun s l).progressDispatches = s.progressDispatches := by
  induction l with
  | nil => intro s hs; exact ⟨hs, rfl⟩
  | cons a rest ih =>
      intro s hs
      have ha := hl a (List.mem_cons_self a rest)
      have hstep := initStep_paused_preserved s a ha.1 ha.2 hs
      have hrest := ih (fun b hb => hl b (List.mem_cons_of_mem _ hb)) (initStep s a) hstep.1
      unfold initRun at hrest ⊢
      rw [List.foldl_cons]
      exact ⟨hrest.1, hrest.2.trans hstep.2⟩

/-- The user-initiated-pause flag survives any list of actions. -/
theorem initRun_flag_monotone (l : List InitAction) :
    ∀ s : InitRun, s.item.userInitiatedPause = true →
      (initRun s l).item.userInitiatedPause = true := by
  induction l with
  | nil => intro s hs; exact hs
  | cons a rest ih =>
      intro s hs
      unfold initRun
      rw [List.foldl_cons]
      exact ih (initStep s a) (initStep_flag_monotone s a hs)

/-- After a list of actions containing a caller pause, the user-initiated-pause
flag is set. -/
theorem initRun_flag_after_callerPause (l : List InitAction)
    (hl : InitAction.callerPause ∈ l) :
    ∀ s : InitRun, (initRun s l).item.userInitiatedPause = true := by
  induction l with
  | nil => cases hl
  | cons a rest ih =>
      intro s
      unfold initRun
      rw [List.foldl_cons]
      by_cases ha : a = InitAction.callerPause
      · subst ha
        exact initRun_flag_monotone rest (initStep s InitAction.callerPause) rfl
      · rcases List.mem_cons.mp hl with h | h
        · exact absurd h.symm ha
        · exact ih h (initStep s a)

/-- C1: if the caller pauses the item through the instrumented pause after the
begin notification (where the initiator pauses defensively) and before the
initiator attaches its listeners, and does not resume, then the automatic
resume at the end of initialization is skipped, the item stays paused through
any further platform activity, the user-initiated-pause flag stays recorded,
and not a single onDownloadProgress dispatch is made. -/
theorem userPause_beforeInit_skips_autoResume (mid suffix : List InitAction)
    (hmidPause : InitAction.callerPause ∈ mid)
    (hmid : ∀ a ∈ mid, a ≠ InitAction.callerResume ∧ a ≠ InitAction.attachAndAutoResume)
    (hsuffix : ∀ a ∈ suffix,
        a ≠ InitAction.callerResume ∧ a ≠ InitAction.attachAndAutoResume) :
    (initRun initialInitRun
        (InitAction.defensivePause :: (mid ++ InitAction.attachAndAutoResume :: suffix))).item.paused
        = true ∧
    (initRun initialInitRun
        (InitAction.defensivePause :: (mid ++ InitAction.attachAndAutoResume :: suffix))).item.userInitiatedPause
        = true ∧
    (initRun initialInitRun
        (InitAction.defensivePause :: (mid ++ InitAction.attachAndAutoResume :: suffix))).progressDispatches
        = 0 := by
  have hsplit :
      initRun initialInitRun
          (InitAction.defensivePause :: (mid ++ InitAction.attachAndAutoResume :: suffix))
        = initRun
            (initStep
              (initRun (initStep initialInitRun InitAction.defensivePause) mid)
              InitAction.attachAndAutoResume)
            suffix := by
    unfold initRun
    rw [List.foldl_cons, List.foldl_append, List.foldl_cons]
  set s1 := initStep initialInitRun InitAction.defensivePause with hs1
  have hs1paused : s1.item.paused = true := rfl
  have hs1disp : s1.progressDispatches = 0 := rfl
  set s2 := initRun s1 mid with hs2
  have hmid2 := initRun_paused_preserved mid hmid s1 hs1paused
  have hs2flag : s2.item.userInitiatedPause = true :=
    initRun_flag_after_callerPause mid hmidPause s1
  set s3 := initStep s2 InitAction.attachAndAutoResume with hs3
  have hs3paused : s3.item.paused = true := by
    rw [hs3]
    simp only [initStep, hs2flag, if_true]
    exact hmid2.1
  have hs3flag : s3.item.userInitiatedPause = true := by
    rw [hs3]
    simp only [initStep, hs2flag, if_true]
  have hs3disp : s3.progressDispatches = 0 := by
    rw [hs3]
    have hkeep : (initStep s2 InitAction.attachAndAutoResume).progressDispatches
        = s2.progressDispatches := by
      simp only [initStep]
    rw [hkeep, hs2, hmid2.2, hs1disp]
  have hfin := initRun_paused_preserved suffix hsuffix s3 hs3paused
  have hfinflag := initRun_flag_monotone suffix s3 hs3flag
  rw [hsplit]
  exact ⟨hfin.1, hfinflag, hfin.2.trans hs3disp⟩

/-- Closed instance of the C1 theorem: the caller pauses right after the begin
notification, initialization finishes, a platform update arrives — the item is
still paused and no progress was dispatched. -/
theorem userPause_beforeInit_skips_autoResume_witness :
    (InitAction.callerPause ∈ [InitAction.callerPause] ∧
      (∀ a ∈ [InitAction.callerPause],
          a ≠ InitAction.callerResume ∧ a ≠ InitAction.attachAndAutoResume) ∧
      (∀ a ∈ [InitAction.progressingUpdate],
          a ≠ InitAction.callerResume ∧ a ≠ InitAction.attachAndAutoResume)) ∧
    ((initRun initialInitRun
        (InitAction.defensivePause ::
          ([InitAction.callerPause] ++
            InitAction.attachAndAutoResume :: [InitAction.progressingUpdate]))).item.paused
        = true ∧
      (initRun initialInitRun
        (InitAction.defensivePause ::
          ([InitAction.callerPause] ++
            InitAction.attachAndAutoResume :: [InitAction.progressingUpdate]))).item.userInitiatedPause
        = true ∧
      (initRun initialInitRun
        (InitAction.defensivePause ::
          ([InitAction.callerPause] ++
            InitAction.attachAndAutoResume :: [InitAction.progressingUpdate]))).progressDispatches
        = 0) :=
  ⟨⟨by decide, by decide, by decide⟩,
    userPause_beforeInit_skips_autoResume [InitAction.callerPause]
      [InitAction.progressingUpdate] (by decide) (by decide) (by decide)⟩

end EDM
